import Mathlib

/-!
Shallow embedding of the SMB file service (smb_service.py) and of the two
route handlers of the REST gateway (smb_api.py) that the claims refer to.

The external smbclient library is modelled as an abstract `Client` record:
each call takes the client state, and returns either a value or an error
message (the Python exception's string), together with the possibly
updated client state.  Quantifying a theorem over all `Client` values
quantifies over every behaviour of the underlying SMB library.
`honestClient` instantiates the record with a concrete remote-share state
for the claims that speak about an honestly behaving share.

The local filesystem is explicit state (`LocalFS`).  Every service
operation additionally returns the list of remote calls it performed
(`RemoteOp`), so that claims of the form "performs no remote read" are
about the code path taken, not only about the final states.

Byte strings are `List Nat`; the 64KiB chunked copy loops of the source
move the whole content and are embedded as single whole-content
read/write calls, which preserves the transferred bytes and the byte
counters the claims mention.
-/

/-- The `SMBConfig` dataclass of smb_service.py. -/
structure SMBConfig where
  server : String
  share : String
  username : String
  password : String
  domain : String
  port : Int
  require_signing : Bool
  encrypt : Bool
  timeout : Int
  deriving Repr, DecidableEq

/-- The share root `self.server_url = f"//{config.server}/{config.share}"`
computed in `SMBFileService.__init__`. -/
def server_url (cfg : SMBConfig) : String :=
  "//" ++ cfg.server ++ "/" ++ cfg.share

/-- Python `remote_path.lstrip("/")`: drop every leading slash. -/
def stripLeadingSlashes (s : String) : String :=
  String.mk (s.toList.dropWhile (fun c => c = '/'))

/-- The characters strictly before the last '/' of the list, when a slash
occurs at all. -/
def beforeLastSlash : List Char → Option (List Char)
  | [] => none
  | c :: cs =>
      match beforeLastSlash cs with
      | some r => some (c :: r)
      | none => if c = '/' then some [] else none

/-- Python `str(Path(p).parent)` for slash-normalised paths with no
trailing slash: the part before the last '/', "." when `p` has no slash,
"/" when the only slash is the leading one. -/
def pythonPathParent (p : String) : String :=
  match beforeLastSlash p.toList with
  | none => "."
  | some [] => "/"
  | some r => String.mk r

/-- The fields of an `smbclient.stat` result that list_files reads.
`st_mtime` is carried opaquely (the code never computes with it). -/
structure StatInfo where
  st_size : Nat
  st_mtime : Int
  deriving Repr, DecidableEq

/-- One possible behaviour of the external smbclient library, with client
state `σ`.  Every method may fail with an error message, standing for a
raised exception whose `str(e)` is that message. -/
structure Client (σ : Type) where
  pathExists : String → σ → Except String Bool × σ
  makedirs : String → σ → Except String Unit × σ
  writeFile : String → List Nat → σ → Except String Unit × σ
  readFile : String → σ → Except String (List Nat) × σ
  listdir : String → σ → Except String (List String) × σ
  statFile : String → σ → Except String StatInfo × σ
  isdir : String → σ → Except String Bool × σ

/-- One remote call performed by an operation, recorded in call order. -/
inductive RemoteOp where
  | existsCheck (p : String)
  | makedirs (p : String)
  | write (p : String)
  | read (p : String)
  | listdir (p : String)
  | statOp (p : String)
  | isdir (p : String)
  deriving Repr, DecidableEq

/-- The local filesystem: regular files (path, bytes) and directories.
`List.lookup` finds the most recent binding, so consing is overwriting. -/
structure LocalFS where
  files : List (String × List Nat)
  dirs : List String
  deriving Repr, DecidableEq

/-- The state of the remote share behind the honest client. -/
structure RemoteState where
  files : List (String × List Nat)
  dirs : List String
  deriving Repr, DecidableEq

/-- Python `Path(p).exists()` on the local filesystem: true for a file or
a directory at `p`. -/
def localExists (fs : LocalFS) (p : String) : Bool :=
  (fs.files.lookup p).isSome || fs.dirs.contains p

/-- `smbclient.path.exists` on the honest share: a file or a directory. -/
def remoteExists (s : RemoteState) (p : String) : Bool :=
  (s.files.lookup p).isSome || s.dirs.contains p

/-- Direct children of directory `p` on the honest share: file names one
segment below `p`. -/
def honestListdir (s : RemoteState) (p : String) : List String :=
  s.files.filterMap (fun q =>
    if q.1.startsWith (p ++ "/") then
      let rest := q.1.drop (p.length + 1)
      if rest.toList.contains '/' then none else some rest
    else none)

/-- The honestly behaving smbclient: every call succeeds whenever its
precondition holds, operating on a concrete `RemoteState`. -/
def honestClient : Client RemoteState where
  pathExists p s := (Except.ok (remoteExists s p), s)
  makedirs p s := (Except.ok (), {s with dirs := p :: s.dirs})
  writeFile p d s := (Except.ok (), {s with files := (p, d) :: s.files})
  readFile p s :=
    match s.files.lookup p with
    | some d => (Except.ok d, s)
    | none => (Except.error ("No such file: " ++ p), s)
  listdir p s := (Except.ok (honestListdir s p), s)
  statFile p s :=
    match s.files.lookup p with
    | some d => (Except.ok {st_size := d.length, st_mtime := 0}, s)
    | none =>
        if s.dirs.contains p then (Except.ok {st_size := 0, st_mtime := 0}, s)
        else (Except.error ("No such file or directory: " ++ p), s)
  isdir p s := (Except.ok (s.dirs.contains p), s)

/-- The dictionary returned by `SMBFileService.upload_file`.  Keys absent
from one of the two shapes (success / error) are `none`. -/
structure UploadResult where
  status : String
  local_path : String
  remote_path : String
  size_bytes : Option Nat
  message : Option String
  error : Option String
  deriving Repr, DecidableEq

/-- The dictionary returned by `SMBFileService.download_file`. -/
structure DownloadResult where
  status : String
  remote_path : String
  local_path : String
  size_bytes : Option Nat
  message : Option String
  error : Option String
  deriving Repr, DecidableEq

/-- One entry of the `files` list built by `SMBFileService.list_files`:
either fully populated, or the name-plus-error placeholder. -/
structure FileEntry where
  name : String
  size : Option Nat
  is_dir : Option Bool
  modified : Option Int
  error : Option String
  deriving Repr, DecidableEq

/-- The dictionary returned by `SMBFileService.list_files`.  The error
shape has no `files` and no `count` key. -/
structure ListResult where
  status : String
  path : String
  files : Option (List FileEntry)
  count : Option Nat
  error : Option String
  deriving Repr, DecidableEq

/-- The dictionary returned by `SMBFileService.test_connection`. -/
structure TestResult where
  status : String
  server : String
  share : String
  signing_required : Option Bool
  connection : Option String
  message : Option String
  error : Option String
  deriving Repr, DecidableEq

/-- `SMBFileService._ensure_remote_dir`: check existence, create only if
absent; the whole body is inside try/except, so any outcome of either
call is swallowed and only the post-call client state is kept. -/
def ensure_remote_dir {σ : Type} (c : Client σ) (p : String) (s : σ) :
    σ × List RemoteOp :=
  match c.pathExists p s with
  | (Except.ok true, s1) => (s1, [RemoteOp.existsCheck p])
  | (Except.ok false, s1) =>
      match c.makedirs p s1 with
      | (_, s2) => (s2, [RemoteOp.existsCheck p, RemoteOp.makedirs p])
  | (Except.error _, s1) => (s1, [RemoteOp.existsCheck p])

/-- `SMBFileService.upload_file`.  The local existence check, the path
resolution against the share root, the optional parent-directory
creation, the chunked copy (embedded as one whole-content write) and the
success/error dictionaries follow the source line by line. -/
def upload_file {σ : Type} (c : Client σ) (cfg : SMBConfig) (fs : LocalFS)
    (local_path remote_path : String) (create_dirs : Bool) (s : σ) :
    UploadResult × σ × List RemoteOp :=
  match fs.files.lookup local_path with
  | none =>
      ({status := "error", local_path := local_path,
        remote_path := remote_path, size_bytes := none, message := none,
        error := some ("Local file not found: " ++ local_path)}, s, [])
  | some content =>
      let full := server_url cfg ++ "/" ++ stripLeadingSlashes remote_path
      let p1 := if create_dirs then
          ensure_remote_dir c (pythonPathParent full) s
        else (s, [])
      match c.writeFile full content p1.1 with
      | (Except.error e, s2) =>
          ({status := "error", local_path := local_path,
            remote_path := remote_path, size_bytes := none, message := none,
            error := some e}, s2, p1.2 ++ [RemoteOp.write full])
      | (Except.ok _, s2) =>
          ({status := "success", local_path := local_path,
            remote_path := full, size_bytes := some content.length,
            message := some "File uploaded successfully", error := none},
           s2, p1.2 ++ [RemoteOp.write full])

/-- `SMBFileService.download_file`.  Refuse an existing local path unless
overwriting, create the local parent directory unconditionally, resolve
the remote path, check remote existence, then stream (embedded as one
whole-content read) into the local file. -/
def download_file {σ : Type} (c : Client σ) (cfg : SMBConfig) (fs : LocalFS)
    (remote_path local_path : String) (overwrite : Bool) (s : σ) :
    DownloadResult × LocalFS × σ × List RemoteOp :=
  if localExists fs local_path && !overwrite then
    ({status := "error", remote_path := remote_path,
      local_path := local_path, size_bytes := none, message := none,
      error := some ("Local file exists and overwrite=False: " ++ local_path)},
     fs, s, [])
  else
    let parent := pythonPathParent local_path
    let fs1 : LocalFS :=
      {fs with dirs := if fs.dirs.contains parent then fs.dirs
                       else parent :: fs.dirs}
    let full := server_url cfg ++ "/" ++ stripLeadingSlashes remote_path
    match c.pathExists full s with
    | (Except.error e, s1) =>
        ({status := "error", remote_path := remote_path,
          local_path := local_path, size_bytes := none, message := none,
          error := some e}, fs1, s1, [RemoteOp.existsCheck full])
    | (Except.ok false, s1) =>
        ({status := "error", remote_path := remote_path,
          local_path := local_path, size_bytes := none, message := none,
          error := some ("Remote file not found: " ++ full)},
         fs1, s1, [RemoteOp.existsCheck full])
    | (Except.ok true, s1) =>
        match c.readFile full s1 with
        | (Except.error e, s2) =>
            ({status := "error", remote_path := remote_path,
              local_path := local_path, size_bytes := none, message := none,
              error := some e}, fs1, s2,
             [RemoteOp.existsCheck full, RemoteOp.read full])
        | (Except.ok content, s2) =>
            ({status := "success", remote_path := full,
              local_path := local_path, size_bytes := some content.length,
              message := some "File downloaded successfully", error := none},
             {fs1 with files := (local_path, content) :: fs1.files}, s2,
             [RemoteOp.existsCheck full, RemoteOp.read full])

/-- The per-entry loop of `SMBFileService.list_files`: stat, then isdir,
both inside the per-entry try/except; a failure of either degrades that
single entry to the name-plus-error placeholder. -/
def listLoop {σ : Type} (c : Client σ) (base : String) :
    List String → σ → List FileEntry × σ × List RemoteOp
  | [], s => ([], s, [])
  | e :: es, s =>
      let ep := base ++ "/" ++ e
      match c.statFile ep s with
      | (Except.error msg, s1) =>
          let rest := listLoop c base es s1
          ({name := e, size := none, is_dir := none, modified := none,
            error := some msg} :: rest.1, rest.2.1,
           RemoteOp.statOp ep :: rest.2.2)
      | (Except.ok st, s1) =>
          match c.isdir ep s1 with
          | (Except.error msg, s2) =>
              let rest := listLoop c base es s2
              ({name := e, size := none, is_dir := none, modified := none,
                error := some msg} :: rest.1, rest.2.1,
               RemoteOp.statOp ep :: RemoteOp.isdir ep :: rest.2.2)
          | (Except.ok d, s2) =>
              let rest := listLoop c base es s2
              ({name := e, size := some st.st_size, is_dir := some d,
                modified := some st.st_mtime, error := none} :: rest.1,
               rest.2.1,
               RemoteOp.statOp ep :: RemoteOp.isdir ep :: rest.2.2)

/-- `SMBFileService.list_files`. -/
def list_files {σ : Type} (c : Client σ) (cfg : SMBConfig)
    (remote_path : String) (s : σ) : ListResult × σ × List RemoteOp :=
  let full := server_url cfg ++ "/" ++ stripLeadingSlashes remote_path
  match c.listdir full s with
  | (Except.error e, s1) =>
      ({status := "error", path := remote_path, files := none,
        count := none, error := some e}, s1, [RemoteOp.listdir full])
  | (Except.ok es, s1) =>
      let r := listLoop c full es s1
      ({status := "success", path := full, files := some r.1,
        count := some r.1.length, error := none}, r.2.1,
       RemoteOp.listdir full :: r.2.2)

/-- `SMBFileService.test_connection`: list the share root as a liveness
probe. -/
def test_connection {σ : Type} (c : Client σ) (cfg : SMBConfig) (s : σ) :
    TestResult × σ × List RemoteOp :=
  match c.listdir (server_url cfg) s with
  | (Except.ok r, s1) =>
      ({status := "success", server := cfg.server, share := cfg.share,
        signing_required := some cfg.require_signing,
        connection := some "active",
        message := some ("Connected successfully. Found " ++
          toString r.length ++ " items in root."), error := none},
       s1, [RemoteOp.listdir (server_url cfg)])
  | (Except.error e, s1) =>
      ({status := "error", server := cfg.server, share := cfg.share,
        signing_required := none, connection := none, message := none,
        error := some e}, s1, [RemoteOp.listdir (server_url cfg)])

/-- `os.getenv(k, d)` over an explicit environment. -/
def getenvD (env : List (String × String)) (k d : String) : String :=
  (env.lookup k).getD d

/-- Python `s.lower() == "true"`. -/
def parseBoolTrue (s : String) : Bool :=
  s.toLower = "true"

/-- The value of a non-empty all-digit character list. -/
def digitsToNat : List Char → Option Nat
  | [] => none
  | cs =>
      if cs.all Char.isDigit then
        some (cs.foldl (fun n c => n * 10 + (c.toNat - 48)) 0)
      else none

/-- Python `int(s)` on the decimal strings the configuration uses: an
optional sign followed by digits. -/
def parseInt (s : String) : Option Int :=
  match s.toList with
  | '-' :: cs => (digitsToNat cs).map (fun n => -(n : Int))
  | '+' :: cs => (digitsToNat cs).map (fun n => (n : Int))
  | cs => (digitsToNat cs).map (fun n => (n : Int))

/-- `load_config_from_env`: build the config from environment variables
(`int()` parsing of port and timeout happens while building, before
validation), then require all of server, share, username, password to be
non-empty, else raise a ValueError naming the required variables. -/
def load_config_from_env (env : List (String × String)) :
    Except String SMBConfig :=
  match parseInt (getenvD env "SMB_PORT" "445"),
        parseInt (getenvD env "SMB_TIMEOUT" "30") with
  | some port, some timeout =>
      let cfg : SMBConfig :=
        {server := getenvD env "SMB_SERVER" "",
         share := getenvD env "SMB_SHARE" "",
         username := getenvD env "SMB_USERNAME" "",
         password := getenvD env "SMB_PASSWORD" "",
         domain := getenvD env "SMB_DOMAIN" "",
         port := port,
         require_signing := parseBoolTrue
           (getenvD env "SMB_REQUIRE_SIGNING" "true"),
         encrypt := parseBoolTrue (getenvD env "SMB_ENCRYPT" "false"),
         timeout := timeout}
      if cfg.server = "" ∨ cfg.share = "" ∨ cfg.username = "" ∨
          cfg.password = "" then
        Except.error
          "Missing required environment variables: SMB_SERVER, SMB_SHARE, SMB_USERNAME, SMB_PASSWORD"
      else Except.ok cfg
  | _, _ => Except.error "invalid literal for int() with base 10"

/-- The parsed JSON object handed to `load_config_from_file`: each
dataclass field possibly present. -/
structure ConfigData where
  server : Option String
  share : Option String
  username : Option String
  password : Option String
  domain : Option String
  port : Option Int
  require_signing : Option Bool
  encrypt : Option Bool
  timeout : Option Int
  deriving Repr, DecidableEq

/-- `load_config_from_file`: `SMBConfig(**config_data)`.  The dataclass
constructor requires the four positional fields and fills the rest from
defaults; it performs no emptiness validation of the values. -/
def load_config_from_file (d : ConfigData) : Except String SMBConfig :=
  match d.server, d.share, d.username, d.password with
  | some sv, some sh, some un, some pw =>
      Except.ok
        {server := sv, share := sh, username := un, password := pw,
         domain := d.domain.getD "", port := d.port.getD 445,
         require_signing := d.require_signing.getD true,
         encrypt := d.encrypt.getD false, timeout := d.timeout.getD 30}
  | _, _, _, _ =>
      Except.error "__init__() missing required positional arguments"

/-- Response of the `/smb/delete` route: HTTP code plus the JSON body
fields the handler emits. -/
structure DeleteResponse where
  code : Nat
  status : String
  error : Option String
  deriving Repr, DecidableEq

/-- A request to `/smb/delete`: the DELETE form carries an optional
`path` query parameter, the POST form an optional JSON body whose
`remote_path` key is itself optional. -/
inductive DeleteRequest where
  | viaDelete (path : Option String)
  | viaPost (body : Option (Option String))
  deriving Repr, DecidableEq

/-- The `delete_file` route handler of smb_api.py, after the
service-initialised guard: extract `remote_path`, reject a missing body
or key with 400, reject an empty value with 400, otherwise answer 501
not-implemented. -/
def delete_file : DeleteRequest → DeleteResponse
  | DeleteRequest.viaDelete p =>
      match p with
      | none =>
          {code := 400, status := "error",
           error := some "remote_path parameter is required"}
      | some rp =>
          if rp = "" then
            {code := 400, status := "error",
             error := some "remote_path parameter is required"}
          else
            {code := 501, status := "error",
             error := some "Delete functionality not yet implemented in SMB service"}
  | DeleteRequest.viaPost body =>
      match body with
      | none =>
          {code := 400, status := "error",
           error := some "remote_path is required"}
      | some none =>
          {code := 400, status := "error",
           error := some "remote_path is required"}
      | some (some rp) =>
          if rp = "" then
            {code := 400, status := "error",
             error := some "remote_path parameter is required"}
          else
            {code := 501, status := "error",
             error := some "Delete functionality not yet implemented in SMB service"}

/-- Response of the `/smb/mkdir` route. -/
structure MkdirResponse where
  code : Nat
  status : String
  remote_path : Option String
  message : Option String
  error : Option String
  deriving Repr, DecidableEq

/-- The `create_directory` route handler of smb_api.py, after the
service-initialised guard: the body is an optional JSON object with an
optional `remote_path` key; when present, resolve against the share root
and call `_ensure_remote_dir`, then unconditionally report success. -/
def create_directory {σ : Type} (c : Client σ) (cfg : SMBConfig) :
    Option (Option String) → σ → MkdirResponse × σ × List RemoteOp
  | none, s =>
      ({code := 400, status := "error", remote_path := none,
        message := none, error := some "remote_path is required"}, s, [])
  | some none, s =>
      ({code := 400, status := "error", remote_path := none,
        message := none, error := some "remote_path is required"}, s, [])
  | some (some rp), s =>
      ({code := 200, status := "success",
        remote_path := some (server_url cfg ++ "/" ++ stripLeadingSlashes rp),
        message := some "Directory created successfully", error := none},
       (ensure_remote_dir c (server_url cfg ++ "/" ++ stripLeadingSlashes rp)
         s).1,
       (ensure_remote_dir c (server_url cfg ++ "/" ++ stripLeadingSlashes rp)
         s).2)

/-- A client whose directory creation always fails and whose existence
check reports absence, counting its calls in the state. -/
def failMkClient : Client Nat where
  pathExists _ s := (Except.ok false, s)
  makedirs _ s := (Except.error "Access denied", s + 1)
  writeFile _ _ s := (Except.ok (), s)
  readFile _ s := (Except.ok [], s)
  listdir _ s := (Except.ok [], s)
  statFile _ s := (Except.ok {st_size := 0, st_mtime := 0}, s)
  isdir _ s := (Except.ok false, s)

/-- A client whose listing succeeds with two entries, one of which cannot
be stat-ed. -/
def flakyClient : Client Nat where
  pathExists _ s := (Except.ok true, s)
  makedirs _ s := (Except.ok (), s)
  writeFile _ _ s := (Except.ok (), s)
  readFile _ s := (Except.ok [], s)
  listdir _ s := (Except.ok ["good.txt", "bad.txt"], s)
  statFile p s :=
    if p = "//srv/shr/d/bad.txt" then (Except.error "Access denied", s + 1)
    else (Except.ok {st_size := 7, st_mtime := 0}, s)
  isdir _ s := (Except.ok false, s)

/-- The honest client's directory creation never touches the files. -/
theorem ensure_honest_files (p : String) (s : RemoteState) :
    ((ensure_remote_dir honestClient p s).1).files = s.files := by
  unfold ensure_remote_dir
  rcases h : remoteExists s p with _ | _ <;> simp [honestClient, h]

/-- On the honest client, uploading an existing local file produces the
full success dictionary of the source. -/
theorem upload_honest_result (cfg : SMBConfig) (fs : LocalFS)
    (s : RemoteState) (lp rp : String) (cd : Bool) (content : List Nat)
    (h : fs.files.lookup lp = some content) :
    (upload_file honestClient cfg fs lp rp cd s).1 =
      {status := "success", local_path := lp,
       remote_path := server_url cfg ++ "/" ++ stripLeadingSlashes rp,
       size_bytes := some content.length,
       message := some "File uploaded successfully", error := none} := by
  unfold upload_file
  rw [h]
  simp [honestClient]

/-- Claim C1: uploading a local file that exists, of N bytes, returns the
success result whose size_bytes equals N and whose remote_path is the
share root "//server/share" plus "/" plus the remote path with all its
leading slashes stripped (remote failures are the subject of C2; here the
share behaves honestly). -/
theorem upload_success_size_and_path (cfg : SMBConfig) (fs : LocalFS)
    (s : RemoteState) (lp rp : String) (cd : Bool) (content : List Nat)
    (h : fs.files.lookup lp = some content) :
    (upload_file honestClient cfg fs lp rp cd s).1 =
      {status := "success", local_path := lp,
       remote_path := server_url cfg ++ "/" ++ stripLeadingSlashes rp,
       size_bytes := some content.length,
       message := some "File uploaded successfully", error := none} :=
  upload_honest_result cfg fs s lp rp cd content h

/-- Claim C1 witness: a 3-byte local file uploads with size_bytes 3 and
the resolved remote path. -/
theorem upload_success_size_and_path_w :
    (([("a.txt", [1, 2, 3])] : List (String × List Nat)).lookup "a.txt" =
      some [1, 2, 3]) ∧
    (upload_file honestClient ⟨"srv", "shr", "u", "p", "", 445, true, false, 30⟩
        ⟨[("a.txt", [1, 2, 3])], []⟩ "a.txt" "docs/a.txt" true ⟨[], []⟩).1 =
      {status := "success", local_path := "a.txt",
       remote_path := "//srv/shr/docs/a.txt", size_bytes := some 3,
       message := some "File uploaded successfully", error := none} :=
  ⟨by decide,
   upload_success_size_and_path
     ⟨"srv", "shr", "u", "p", "", 445, true, false, 30⟩
     ⟨[("a.txt", [1, 2, 3])], []⟩ ⟨[], []⟩ "a.txt" "docs/a.txt" true
     [1, 2, 3] (by decide)⟩

/-- Claim C4: downloading onto an existing local path with overwrite=false
returns the AlreadyExists error result, leaves the local filesystem and
the client state unchanged, and performs no remote call at all — no
existence check and no read — whatever the SMB client behaviour. -/
theorem download_refuses_existing_local {σ : Type} (c : Client σ)
    (cfg : SMBConfig) (fs : LocalFS) (s : σ) (rp lp : String)
    (h : (fs.files.lookup lp).isSome = true) :
    download_file c cfg fs rp lp false s =
      ({status := "error", remote_path := rp, local_path := lp,
        size_bytes := none, message := none,
        error := some ("Local file exists and overwrite=False: " ++ lp)},
       fs, s, []) := by
  unfold download_file
  simp [localExists, h]

/-- Claim C4 witness: the existing local file x.txt blocks the download
and nothing is touched. -/
theorem download_refuses_existing_local_w :
    ((([("x.txt", [9])] : List (String × List Nat)).lookup "x.txt").isSome =
      true) ∧
    download_file honestClient ⟨"srv", "shr", "u", "p", "", 445, true, false, 30⟩
        ⟨[("x.txt", [9])], []⟩ "f" "x.txt" false ⟨[], []⟩ =
      ({status := "error", remote_path := "f", local_path := "x.txt",
        size_bytes := none, message := none,
        error := some "Local file exists and overwrite=False: x.txt"},
       ⟨[("x.txt", [9])], []⟩, ⟨[], []⟩, []) :=
  ⟨by decide, download_refuses_existing_local _ _ _ _ _ _ (by decide)⟩

/-- Claim C8 counterexample: loading a configuration file whose server
field is the empty string succeeds instead of failing with a validation
error, so configuration loading from a file does not guarantee non-empty
fields. -/
theorem load_config_from_file_accepts_empty_server :
    load_config_from_file
        ⟨some "", some "shr", some "u", some "p", none, none, none, none,
         none⟩ =
      Except.ok ⟨"", "shr", "u", "p", "", 445, true, false, 30⟩ := rfl

/-- Claim C8 (amended): only environment-based loading validates — when
any of server, share, username, password is empty (and the port and
timeout strings parse), it fails with the ValueError naming the four
required variables; file-based loading performs no emptiness validation
and succeeds whenever the four required keys are present, with the
dataclass defaults for the rest. -/
theorem config_validation_env_only :
    (∀ (env : List (String × String)) (port timeout : Int),
        parseInt (getenvD env "SMB_PORT" "445") = some port →
        parseInt (getenvD env "SMB_TIMEOUT" "30") = some timeout →
        (getenvD env "SMB_SERVER" "" = "" ∨ getenvD env "SMB_SHARE" "" = "" ∨
         getenvD env "SMB_USERNAME" "" = "" ∨
         getenvD env "SMB_PASSWORD" "" = "") →
        load_config_from_env env =
          Except.error
            "Missing required environment variables: SMB_SERVER, SMB_SHARE, SMB_USERNAME, SMB_PASSWORD") ∧
    (∀ (d : ConfigData) (sv sh un pw : String),
        d.server = some sv → d.share = some sh → d.username = some un →
        d.password = some pw →
        load_config_from_file d =
          Except.ok
            {server := sv, share := sh, username := un, password := pw,
             domain := d.domain.getD "", port := d.port.getD 445,
             require_signing := d.require_signing.getD true,
             encrypt := d.encrypt.getD false,
             timeout := d.timeout.getD 30}) := by
  constructor
  · intro env port timeout hp ht hmiss
    unfold load_config_from_env
    rw [hp, ht]
    split
    · dsimp only
      split
      · rfl
      · next hcond => exact absurd hmiss hcond
    · next hne => exact (hne port timeout rfl rfl).elim
  · intro d sv sh un pw h1 h2 h3 h4
    unfold load_config_from_file
    rw [h1, h2, h3, h4]

/-- Claim C8 witness: the empty environment fails env loading with the
validation error, and a file with the four keys present loads. -/
theorem config_validation_env_only_w :
    (parseInt (getenvD [] "SMB_PORT" "445") = some 445) ∧
    (parseInt (getenvD [] "SMB_TIMEOUT" "30") = some 30) ∧
    (getenvD [] "SMB_SERVER" "" = "") ∧
    (load_config_from_env [] =
      Except.error
        "Missing required environment variables: SMB_SERVER, SMB_SHARE, SMB_USERNAME, SMB_PASSWORD") ∧
    (load_config_from_file
        ⟨some "sv", some "sh", some "un", some "pw", none, none, none, none,
         none⟩ =
      Except.ok ⟨"sv", "sh", "un", "pw", "", 445, true, false, 30⟩) :=
  ⟨by decide, by decide, by decide,
   config_validation_env_only.1 [] 445 30 (by decide) (by decide)
     (Or.inl (by decide)),
   config_validation_env_only.2 _ "sv" "sh" "un" "pw" rfl rfl rfl rfl⟩

/-- Claim C9 counterexample: a DELETE request to /smb/delete carrying no
path parameter is answered 400, not 501, so the endpoint does not answer
501 regardless of the request's parameters. -/
theorem delete_without_path_is_400 :
    (delete_file (DeleteRequest.viaDelete none)).code = 400 ∧
    ¬ (delete_file (DeleteRequest.viaDelete none)).code = 501 := by decide

/-- Claim C9 (amended): every /smb/delete request that carries a
non-empty remote_path — DELETE with the path query parameter or POST with
the remote_path JSON key — is answered 501 with the not-implemented error
body; a request whose remote_path is missing or empty is answered 400
instead. -/
theorem delete_not_implemented (rp : String) (h : ¬ rp = "") :
    (delete_file (DeleteRequest.viaDelete (some rp)) =
      {code := 501, status := "error",
       error := some "Delete functionality not yet implemented in SMB service"}) ∧
    (delete_file (DeleteRequest.viaPost (some (some rp))) =
      {code := 501, status := "error",
       error := some "Delete functionality not yet implemented in SMB service"}) ∧
    (delete_file (DeleteRequest.viaDelete none)).code = 400 ∧
    (delete_file (DeleteRequest.viaDelete (some ""))).code = 400 ∧
    (delete_file (DeleteRequest.viaPost none)).code = 400 ∧
    (delete_file (DeleteRequest.viaPost (some none))).code = 400 ∧
    (delete_file (DeleteRequest.viaPost (some (some "")))).code = 400 := by
  refine ⟨?_, ?_, by decide, by decide, by decide, by decide, by decide⟩
  · unfold delete_file
    simp [h]
  · unfold delete_file
    simp [h]

/-- Claim C9 witness: the path f.txt is non-empty and both request forms
get the 501 body. -/
theorem delete_not_implemented_w :
    (¬ ("f.txt" : String) = "") ∧
    ((delete_file (DeleteRequest.viaDelete (some "f.txt"))).code = 501) ∧
    ((delete_file (DeleteRequest.viaPost (some (some "f.txt")))).code =
      501) :=
  ⟨by decide,
   by rw [(delete_not_implemented "f.txt" (by decide)).1],
   by rw [(delete_not_implemented "f.txt" (by decide)).2.1]⟩

/-- Claim C10: a POST /smb/mkdir whose JSON body contains remote_path is
answered 200 with status success and message "Directory created
successfully" even when the underlying creation fails — here the
existence check reports absence and makedirs raises, yet the handler
still reports success, because _ensure_remote_dir swallows the failure. -/
theorem mkdir_reports_success_on_failure {σ : Type} (c : Client σ)
    (cfg : SMBConfig) (rp : String) (s s1 s2 : σ) (e : String)
    (h1 : c.pathExists (server_url cfg ++ "/" ++ stripLeadingSlashes rp) s =
      (Except.ok false, s1))
    (h2 : c.makedirs (server_url cfg ++ "/" ++ stripLeadingSlashes rp) s1 =
      (Except.error e, s2)) :
    (create_directory c cfg (some (some rp)) s).1 =
      {code := 200, status := "success",
       remote_path := some (server_url cfg ++ "/" ++ stripLeadingSlashes rp),
       message := some "Directory created successfully", error := none} ∧
    (create_directory c cfg (some (some rp)) s).2.1 = s2 ∧
    (create_directory c cfg (some (some rp)) s).2.2 =
      [RemoteOp.existsCheck (server_url cfg ++ "/" ++ stripLeadingSlashes rp),
       RemoteOp.makedirs (server_url cfg ++ "/" ++ stripLeadingSlashes rp)] := by
  have hens : ensure_remote_dir c
      (server_url cfg ++ "/" ++ stripLeadingSlashes rp) s =
      (s2,
       [RemoteOp.existsCheck (server_url cfg ++ "/" ++ stripLeadingSlashes rp),
        RemoteOp.makedirs (server_url cfg ++ "/" ++ stripLeadingSlashes rp)]) := by
    simp only [ensure_remote_dir, h1, h2]
  simp only [create_directory, hens]
  exact ⟨trivial, trivial, trivial⟩

/-- Claim C10 witness: the always-failing client still gets a 200 success
response from the mkdir handler. -/
theorem mkdir_reports_success_on_failure_w :
    (failMkClient.pathExists "//srv/shr/newdir" 0 = (Except.ok false, 0)) ∧
    (failMkClient.makedirs "//srv/shr/newdir" 0 =
      (Except.error "Access denied", 1)) ∧
    (create_directory failMkClient
        ⟨"srv", "shr", "u", "p", "", 445, true, false, 30⟩
        (some (some "newdir")) 0).1 =
      {code := 200, status := "success", remote_path := some "//srv/shr/newdir",
       message := some "Directory created successfully", error := none} :=
  ⟨rfl, rfl,
   (mkdir_reports_success_on_failure failMkClient
     ⟨"srv", "shr", "u", "p", "", 445, true, false, 30⟩ "newdir" 0 0 1
     "Access denied" rfl rfl).1⟩

/-- The upload result's error field is populated exactly on error status,
for every client behaviour. -/
theorem upload_error_iff {σ : Type} (c : Client σ) (cfg : SMBConfig)
    (fs : LocalFS) (lp rp : String) (cd : Bool) (s : σ) :
    ((upload_file c cfg fs lp rp cd s).1.error.isSome = true ↔
      (upload_file c cfg fs lp rp cd s).1.status = "error") := by
  unfold upload_file
  split
  · simp
  · dsimp only
    split <;> simp

/-- The download result's error field is populated exactly on error
status, for every client behaviour. -/
theorem download_error_iff {σ : Type} (c : Client σ) (cfg : SMBConfig)
    (fs : LocalFS) (rp lp : String) (ow : Bool) (s : σ) :
    ((download_file c cfg fs rp lp ow s).1.error.isSome = true ↔
      (download_file c cfg fs rp lp ow s).1.status = "error") := by
  unfold download_file
  split
  · simp
  · dsimp only
    split
    · simp
    · simp
    · split <;> simp

/-- The listing result's error field is populated exactly on error
status, for every client behaviour. -/
theorem list_error_iff {σ : Type} (c : Client σ) (cfg : SMBConfig)
    (rp : String) (s : σ) :
    ((list_files c cfg rp s).1.error.isSome = true ↔
      (list_files c cfg rp s).1.status = "error") := by
  unfold list_files
  dsimp only
  split <;> simp

/-- The connection-test result's error field is populated exactly on
error status, for every client behaviour. -/
theorem test_error_iff {σ : Type} (c : Client σ) (cfg : SMBConfig)
    (s : σ) :
    ((test_connection c cfg s).1.error.isSome = true ↔
      (test_connection c cfg s).1.status = "error") := by
  unfold test_connection
  split <;> simp

/-- Claim C2: for every input and every behaviour of the underlying SMB
client, each public operation returns a result record (each embedded
operation is a total function, so no exception escapes), and that record
carries an error field exactly when its status is "error"; success
results carry none. -/
theorem results_error_iff_status {σ : Type} (c : Client σ)
    (cfg : SMBConfig) (fs : LocalFS) (s : σ) (lp rp lp2 rp2 rp3 : String)
    (cd ow : Bool) :
    ((upload_file c cfg fs lp rp cd s).1.error.isSome = true ↔
      (upload_file c cfg fs lp rp cd s).1.status = "error") ∧
    ((download_file c cfg fs rp2 lp2 ow s).1.error.isSome = true ↔
      (download_file c cfg fs rp2 lp2 ow s).1.status = "error") ∧
    ((list_files c cfg rp3 s).1.error.isSome = true ↔
      (list_files c cfg rp3 s).1.status = "error") ∧
    ((test_connection c cfg s).1.error.isSome = true ↔
      (test_connection c cfg s).1.status = "error") :=
  ⟨upload_error_iff c cfg fs lp rp cd s,
   download_error_iff c cfg fs rp2 lp2 ow s,
   list_error_iff c cfg rp3 s,
   test_error_iff c cfg s⟩

/-- Claim C7: _ensure_remote_dir is idempotent — on the honest client an
existing path, in particular the state left by a first call on the same
path, triggers no creation call and changes nothing — and a failing
creation is swallowed: the function returns normally with the
post-failure client state instead of propagating the error to its
caller. -/
theorem ensure_remote_dir_idempotent (p : String) (s : RemoteState) :
    (remoteExists s p = true →
      ensure_remote_dir honestClient p s = (s, [RemoteOp.existsCheck p])) ∧
    (ensure_remote_dir honestClient p
        ((ensure_remote_dir honestClient p s).1) =
      ((ensure_remote_dir honestClient p s).1,
       [RemoteOp.existsCheck p])) ∧
    (∀ (τ : Type) (c : Client τ) (t t1 t2 : τ) (e : String),
      c.pathExists p t = (Except.ok false, t1) →
      c.makedirs p t1 = (Except.error e, t2) →
      ensure_remote_dir c p t =
        (t2, [RemoteOp.existsCheck p, RemoteOp.makedirs p])) := by
  have hex : ∀ (t : RemoteState), remoteExists t p = true →
      ensure_remote_dir honestClient p t = (t, [RemoteOp.existsCheck p]) := by
    intro t h
    simp only [ensure_remote_dir, honestClient, h]
  refine ⟨hex s, ?_, ?_⟩
  · rcases h : remoteExists s p with _ | _
    · have hfst : (ensure_remote_dir honestClient p s).1 =
          {s with dirs := p :: s.dirs} := by
        simp only [ensure_remote_dir, honestClient, h]
      rw [hfst]
      apply hex
      simp [remoteExists]
    · have hfst : (ensure_remote_dir honestClient p s).1 = s := by
        simp only [ensure_remote_dir, honestClient, h]
      rw [hfst]
      exact hex s h
  · intro τ c t t1 t2 e h1 h2
    simp only [ensure_remote_dir, h1, h2]

/-- Claim C7 witness: an existing directory d is not re-created, a second
call after creating e changes nothing, and the failing client's error is
absorbed. -/
theorem ensure_remote_dir_idempotent_w :
    (remoteExists ⟨[], ["d"]⟩ "d" = true) ∧
    (ensure_remote_dir honestClient "d" ⟨[], ["d"]⟩ =
      (⟨[], ["d"]⟩, [RemoteOp.existsCheck "d"])) ∧
    (ensure_remote_dir honestClient "e"
        ((ensure_remote_dir honestClient "e" ⟨[], []⟩).1) =
      ((ensure_remote_dir honestClient "e" ⟨[], []⟩).1,
       [RemoteOp.existsCheck "e"])) ∧
    (failMkClient.pathExists "d" 0 = (Except.ok false, 0)) ∧
    (failMkClient.makedirs "d" 0 = (Except.error "Access denied", 1)) ∧
    (ensure_remote_dir failMkClient "d" 0 =
      (1, [RemoteOp.existsCheck "d", RemoteOp.makedirs "d"])) :=
  ⟨by decide,
   (ensure_remote_dir_idempotent "d" ⟨[], ["d"]⟩).1 (by decide),
   (ensure_remote_dir_idempotent "e" ⟨[], []⟩).2.1,
   rfl, rfl,
   (ensure_remote_dir_idempotent "d" (⟨[], []⟩ : RemoteState)).2.2
     Nat failMkClient 0 0 1 "Access denied" rfl rfl⟩

/-- Claim C5 counterexample: downloading a missing remote file into a
local path whose parent directory does not yet exist returns the NotFound
error, but the local filesystem is not left unchanged — the parent
directory a has already been created, because the handler creates local
parent directories before the remote existence check. -/
theorem download_missing_remote_changes_local_dirs :
    ((download_file honestClient
        ⟨"srv", "shr", "u", "p", "", 445, true, false, 30⟩
        ⟨[], []⟩ "missing.txt" "a/b.txt" false ⟨[], []⟩).1.error =
      some "Remote file not found: //srv/shr/missing.txt") ∧
    ¬ ((download_file honestClient
        ⟨"srv", "shr", "u", "p", "", 445, true, false, 30⟩
        ⟨[], []⟩ "missing.txt" "a/b.txt" false ⟨[], []⟩).2.1 =
      (⟨[], []⟩ : LocalFS)) := by decide

/-- Claim C5 (amended): downloading a remote path absent from the honest
share returns the NotFound error result before any local file write — no
local file is created or modified and the remote state is untouched —
although the local parent directory has already been created
unconditionally. -/
theorem download_missing_remote_no_file_write (cfg : SMBConfig)
    (fs : LocalFS) (s : RemoteState) (rp lp : String) (ow : Bool)
    (h1 : (localExists fs lp && !ow) = false)
    (h2 : remoteExists s (server_url cfg ++ "/" ++ stripLeadingSlashes rp) =
      false) :
    ((download_file honestClient cfg fs rp lp ow s).1 =
      {status := "error", remote_path := rp, local_path := lp,
       size_bytes := none, message := none,
       error := some ("Remote file not found: " ++
         (server_url cfg ++ "/" ++ stripLeadingSlashes rp))}) ∧
    (((download_file honestClient cfg fs rp lp ow s).2.1).files =
      fs.files) ∧
    ((download_file honestClient cfg fs rp lp ow s).2.2.1 = s) := by
  unfold download_file
  rw [h1]
  simp only [honestClient, h2]
  exact ⟨rfl, rfl, rfl⟩

/-- Claim C5 amended-form witness: the missing remote file f is reported
NotFound and no local file appears. -/
theorem download_missing_remote_no_file_write_w :
    ((localExists ⟨[], []⟩ "o.txt" && !false) = false) ∧
    (remoteExists ⟨[], []⟩ "//srv/shr/f" = false) ∧
    ((download_file honestClient
        ⟨"srv", "shr", "u", "p", "", 445, true, false, 30⟩
        ⟨[], []⟩ "f" "o.txt" false ⟨[], []⟩).1 =
      {status := "error", remote_path := "f", local_path := "o.txt",
       size_bytes := none, message := none,
       error := some "Remote file not found: //srv/shr/f"}) ∧
    ((download_file honestClient
        ⟨"srv", "shr", "u", "p", "", 445, true, false, 30⟩
        ⟨[], []⟩ "f" "o.txt" false ⟨[], []⟩).2.1).files = [] :=
  ⟨by decide, by decide,
   (download_missing_remote_no_file_write
     ⟨"srv", "shr", "u", "p", "", 445, true, false, 30⟩ ⟨[], []⟩ ⟨[], []⟩
     "f" "o.txt" false (by decide) (by decide)).1,
   (download_missing_remote_no_file_write
     ⟨"srv", "shr", "u", "p", "", 445, true, false, 30⟩ ⟨[], []⟩ ⟨[], []⟩
     "f" "o.txt" false (by decide) (by decide)).2.1⟩

/-- Every entry produced by the listing loop keeps its directory-entry
name in order and is either the name-plus-error placeholder or fully
populated, whatever the client behaviour. -/
theorem listLoop_entries {σ : Type} (c : Client σ) (base : String)
    (es : List String) : ∀ (s : σ),
    ((listLoop c base es s).1.map FileEntry.name = es) ∧
    (∀ e ∈ (listLoop c base es s).1,
      (e.error.isSome = true ∧ e.size = none ∧ e.is_dir = none ∧
        e.modified = none) ∨
      (e.error = none ∧ e.size.isSome = true ∧ e.is_dir.isSome = true ∧
        e.modified.isSome = true)) := by
  induction es with
  | nil => intro s; simp [listLoop]
  | cons e es ih =>
      intro s
      unfold listLoop
      dsimp only
      split
      · constructor
        · simp [(ih _).1]
        · intro x hx
          rcases List.mem_cons.mp hx with h | h
          · subst h; left; simp
          · exact (ih _).2 x h
      · split
        · constructor
          · simp [(ih _).1]
          · intro x hx
            rcases List.mem_cons.mp hx with h | h
            · subst h; left; simp
            · exact (ih _).2 x h
        · constructor
          · simp [(ih _).1]
          · intro x hx
            rcases List.mem_cons.mp hx with h | h
            · subst h; right; simp
            · exact (ih _).2 x h

/-- Claim C6: whenever the enumeration of a remote directory succeeds,
list_files returns a success result whose count equals the total number
of directory entries; every entry whose metadata retrieval fails appears
as the placeholder with its name and an error string, every other entry
carries name, size, is_dir and modified, and a per-entry failure never
aborts the whole listing, whatever the client behaviour. -/
theorem list_files_partial_failure {σ : Type} (c : Client σ)
    (cfg : SMBConfig) (rp : String) (s s1 : σ) (es : List String)
    (h : c.listdir (server_url cfg ++ "/" ++ stripLeadingSlashes rp) s =
      (Except.ok es, s1)) :
    ((list_files c cfg rp s).1.status = "success") ∧
    ((list_files c cfg rp s).1.count = some es.length) ∧
    (∀ fl, (list_files c cfg rp s).1.files = some fl →
      fl.map FileEntry.name = es ∧ fl.length = es.length ∧
      ∀ e ∈ fl,
        (e.error.isSome = true ∧ e.size = none ∧ e.is_dir = none ∧
          e.modified = none) ∨
        (e.error = none ∧ e.size.isSome = true ∧ e.is_dir.isSome = true ∧
          e.modified.isSome = true)) := by
  have hl := listLoop_entries c
    (server_url cfg ++ "/" ++ stripLeadingSlashes rp) es s1
  have hlen : (listLoop c (server_url cfg ++ "/" ++ stripLeadingSlashes rp)
      es s1).1.length = es.length := by
    have := congrArg List.length hl.1
    simpa using this
  have hred : (list_files c cfg rp s).1 =
      {status := "success",
       path := server_url cfg ++ "/" ++ stripLeadingSlashes rp,
       files := some (listLoop c
         (server_url cfg ++ "/" ++ stripLeadingSlashes rp) es s1).1,
       count := some (listLoop c
         (server_url cfg ++ "/" ++ stripLeadingSlashes rp) es s1).1.length,
       error := none} := by
    simp only [list_files, h]
  rw [hred]
  refine ⟨rfl, congrArg some hlen, ?_⟩
  intro fl hfl
  obtain rfl := Option.some.inj hfl
  exact ⟨hl.1, hlen, hl.2⟩

/-- Claim C6 witness: listing a directory with one healthy entry and one
that cannot be stat-ed keeps count 2 and degrades only the bad entry. -/
theorem list_files_partial_failure_w :
    (flakyClient.listdir "//srv/shr/d" 0 =
      (Except.ok ["good.txt", "bad.txt"], 0)) ∧
    ((list_files flakyClient
        ⟨"srv", "shr", "u", "p", "", 445, true, false, 30⟩ "d" 0).1.status =
      "success") ∧
    ((list_files flakyClient
        ⟨"srv", "shr", "u", "p", "", 445, true, false, 30⟩ "d" 0).1.count =
      some 2) ∧
    ((list_files flakyClient
        ⟨"srv", "shr", "u", "p", "", 445, true, false, 30⟩ "d" 0).1.files =
      some
        [{name := "good.txt", size := some 7, is_dir := some false,
          modified := some 0, error := none},
         {name := "bad.txt", size := none, is_dir := none, modified := none,
          error := some "Access denied"}]) :=
  ⟨rfl,
   (list_files_partial_failure flakyClient
     ⟨"srv", "shr", "u", "p", "", 445, true, false, 30⟩ "d" 0 0
     ["good.txt", "bad.txt"] rfl).1,
   (list_files_partial_failure flakyClient
     ⟨"srv", "shr", "u", "p", "", 445, true, false, 30⟩ "d" 0 0
     ["good.txt", "bad.txt"] rfl).2.1,
   by decide⟩
